import Mathlib

/-!
Shallow embedding of the InfoBot check-and-notify pipeline.

The model follows the source:
  * `Database.*`        — src/database/database.js (SQLite tables modelled as lists
                          of rows; `INSERT OR REPLACE` deletes the conflicting row
                          and inserts the new one).
  * `YouTubeService.*`  — src/services/youtube.js `checkForNewVideos`.
  * `InstagramService.*`— src/services/instagram.js (`respectRateLimit`,
                          `scrapeProfile` retry loop, `checkForNewPosts`).
  * `DiscordService.*`  — src/services/discord.js `sendSocialMediaUpdate`.
  * `Scheduler.*`       — src/utils/scheduler.js (`sendNotifications`,
                          and the event trace of the per-source cycle).

Timestamps are milliseconds as `Nat` (JS `Date.now()` values); network and channel
outcomes are explicit parameters (oracles) standing for the external collaborators.
-/

namespace InfoBot

/-- A transient content item produced by a source poller: the fields of the
objects built in `getLatestVideos` / `parseInstagramData` that the pipeline
reads (`id`, `publishedAt`/`timestamp`, `url`). -/
structure ContentItem where
  id : String
  timestamp : Nat
  url : String
  deriving Repr, DecidableEq

/-- One row of the `last_updates` table (UNIQUE on `platform`). -/
structure LastUpdateRow where
  platform : String
  last_check_time : Nat
  last_content_id : Option String
  last_content_timestamp : Option Nat
  deriving Repr, DecidableEq

/-- One row of the `sent_notifications` table (UNIQUE on `(platform, content_id)`). -/
structure SentNotificationRow where
  platform : String
  content_id : String
  content_url : Option String
  discord_message_id : Option String
  sent_at : Nat
  deriving Repr, DecidableEq

/-- The persistent database state: the two tables the pipeline mutates. -/
structure DBState where
  last_updates : List LastUpdateRow
  sent_notifications : List SentNotificationRow
  deriving Repr, DecidableEq

/-- The SQL `WHERE platform = ? AND content_id = ?` key predicate used by
`isNotificationSent` and by the `UNIQUE(platform, content_id)` constraint. -/
def sentKey (platform contentId : String) (r : SentNotificationRow) : Bool :=
  r.platform == platform && r.content_id == contentId

/-- `SELECT * FROM last_updates WHERE platform = ?` (`Database.getLastUpdate`). -/
def Database.getLastUpdate (db : DBState) (platform : String) : Option LastUpdateRow :=
  db.last_updates.find? (fun r => r.platform == platform)

/-- `Database.updateLastCheck`: `INSERT OR REPLACE INTO last_updates (platform,
last_check_time, last_content_id, last_content_timestamp, ...) VALUES
(?, CURRENT_TIMESTAMP, ?, ?, ...)`. The replace removes any row with the same
`platform` and inserts the fresh row; `now` stands for `CURRENT_TIMESTAMP`. -/
def Database.updateLastCheck (db : DBState) (now : Nat) (platform : String)
    (lastContentId : Option String) (lastContentTimestamp : Option Nat) : DBState :=
  { db with last_updates :=
      ⟨platform, now, lastContentId, lastContentTimestamp⟩ ::
        db.last_updates.filter (fun r => !(r.platform == platform)) }

/-- `Database.isNotificationSent`: `SELECT id FROM sent_notifications WHERE
platform = ? AND content_id = ?`, coerced to a boolean (`!!row`). -/
def Database.isNotificationSent (db : DBState) (platform contentId : String) : Bool :=
  db.sent_notifications.any (sentKey platform contentId)

/-- `Database.recordSentNotification`: `INSERT OR REPLACE INTO sent_notifications
(platform, content_id, content_url, discord_message_id, sent_at) VALUES
(?, ?, ?, ?, CURRENT_TIMESTAMP)`; the replace removes any row with the same
`(platform, content_id)` key. -/
def Database.recordSentNotification (db : DBState) (now : Nat)
    (platform contentId : String) (contentUrl discordMessageId : Option String) : DBState :=
  { db with sent_notifications :=
      ⟨platform, contentId, contentUrl, discordMessageId, now⟩ ::
        db.sent_notifications.filter (fun r => !(sentKey platform contentId r)) }

/-- Thirty days in milliseconds, the retention window of `cleanupOldNotifications`. -/
def thirtyDaysMs : Nat := 30 * 24 * 60 * 60 * 1000

/-- `Database.cleanupOldNotifications`: `DELETE FROM sent_notifications WHERE
sent_at < datetime('now', '-30 days')`; returns the new state and the number of
deleted rows (`this.changes`). -/
def Database.cleanupOldNotifications (db : DBState) (now : Nat) : DBState × Nat :=
  let kept := db.sent_notifications.filter (fun r => !(r.sent_at < now - thirtyDaysMs))
  ({ db with sent_notifications := kept },
    db.sent_notifications.length - kept.length)

/-- Twenty-four hours in milliseconds. -/
def dayMs : Nat := 24 * 60 * 60 * 1000

/-- The default cursor used by `checkForNewVideos` / `checkForNewPosts` when no
stored content timestamp exists: `new Date(Date.now() - 24 * 60 * 60 * 1000)`. -/
def defaultCursor (now : Nat) : Nat := now - dayMs

/-- The `lastCheckTime` cursor computed at the top of `checkForNewVideos` /
`checkForNewPosts`: the stored `last_content_timestamp` when the row exists and
the field is set, else 24 hours before `now`. -/
def cursorTime (db : DBState) (now : Nat) (platform : String) : Nat :=
  match Database.getLastUpdate db platform with
  | some row =>
    match row.last_content_timestamp with
    | some t => t
    | none => defaultCursor now
  | none => defaultCursor now

/-- Result shape of a source's `checkForNew*` call: the `success` flag and the
`newContent` array (the other reported fields do not feed back into the pipeline). -/
structure CheckResult where
  success : Bool
  newContent : List ContentItem
  deriving Repr, DecidableEq

/-- `YouTubeService.checkForNewVideos`, with the outcome of `getLatestVideos`
supplied as an oracle: `none` models `result.success === false` (the early
return), `some videos` the fetched most-recent-first list. The body filters
items strictly newer than the cursor, drops items already recorded in
`sent_notifications`, and updates the check state from `result.videos[0]` only
when that element exists. -/
def YouTubeService.checkForNewVideos (db : DBState) (now : Nat)
    (fetch : Option (List ContentItem)) : CheckResult × DBState :=
  match fetch with
  | none => (⟨false, []⟩, db)
  | some videos =>
    let lastCheckTime := cursorTime db now "youtube"
    let newVideos := videos.filter (fun v => lastCheckTime < v.timestamp)
    let unseenVideos := newVideos.filter
      (fun v => !(Database.isNotificationSent db "youtube" v.id))
    let db2 :=
      match videos.head? with
      | some latestVideo =>
          Database.updateLastCheck db now "youtube"
            (some latestVideo.id) (some latestVideo.timestamp)
      | none => db
    (⟨true, unseenVideos⟩, db2)

/-- Outcome of the Instagram fetch step as seen by `checkForNewPosts`:
`ok posts` models `scrapeProfile` resolving with `success: true`,
`failResult` models it resolving with `success: false` (the early return), and
`thrown` models an exception reaching the `catch` block. -/
inductive FetchOutcome where
  | ok (posts : List ContentItem)
  | failResult (err : String)
  | thrown (err : String)
  deriving Repr, DecidableEq

/-- `InstagramService.checkForNewPosts`. Unlike the YouTube variant it updates
the check state with `(null, null)` when zero posts were fetched, and its
`catch` block also calls `updateLastCheck('instagram', null, null)`. -/
def InstagramService.checkForNewPosts (db : DBState) (now : Nat)
    (outcome : FetchOutcome) : CheckResult × DBState :=
  match outcome with
  | .failResult _ => (⟨false, []⟩, db)
  | .thrown _ => (⟨false, []⟩, Database.updateLastCheck db now "instagram" none none)
  | .ok posts =>
    let lastCheckTime := cursorTime db now "instagram"
    let newPosts := posts.filter (fun p => lastCheckTime < p.timestamp)
    let unseenPosts := newPosts.filter
      (fun p => !(Database.isNotificationSent db "instagram" p.id))
    let db2 :=
      match posts.head? with
      | some latestPost =>
          Database.updateLastCheck db now "instagram"
            (some latestPost.id) (some latestPost.timestamp)
      | none => Database.updateLastCheck db now "instagram" none none
    (⟨true, unseenPosts⟩, db2)

/-- `this.rateLimitDelay = 10000` (milliseconds) in the Instagram service. -/
def InstagramService.rateLimitDelay : Nat := 10000

/-- The minimum enforced gap computed by `respectRateLimit`:
`this.rateLimitDelay * Math.pow(2, this.failureCount)`. -/
def InstagramService.currentDelay (failureCount : Nat) : Nat :=
  InstagramService.rateLimitDelay * 2 ^ failureCount

/-- `InstagramService.respectRateLimit`: the wait actually slept before a
request, given the failure count, the last request time and the current time. -/
def InstagramService.respectRateLimit (failureCount lastRequestTime now : Nat) : Nat :=
  let timeSinceLastRequest := now - lastRequestTime
  let currentDelay := InstagramService.currentDelay failureCount
  if timeSinceLastRequest < currentDelay then currentDelay - timeSinceLastRequest else 0

/-- Outcome of one iteration of `scrapeProfile`'s `try` body, as an oracle:
success with parsed posts, an HTTP 429 (`error.response?.status === 429`), or
any other thrown error. -/
inductive AttemptOutcome where
  | ok (posts : List ContentItem)
  | rateLimited
  | otherError (msg : String)
  deriving Repr, DecidableEq

/-- Whether an attempt outcome is a success. -/
def AttemptOutcome.isOk : AttemptOutcome → Bool
  | .ok _ => true
  | _ => false

/-- What `scrapeProfile` resolves with, together with the poller's mutable
instance state after the call (`this.failureCount`) and the number of fetch
attempts that were actually performed. -/
structure ScrapeResult where
  success : Bool
  posts : List ContentItem
  failureCount : Nat
  attemptsUsed : Nat
  deriving Repr, DecidableEq

/-- The `while (attempt < this.maxRetries)` loop of `scrapeProfile`, consuming
one oracle outcome per attempt. In the `catch` block the code increments both
`attempt` and `this.failureCount`; a 429 with attempts remaining waits and
continues, a 429 with attempts exhausted falls through to the failure return,
and any other error returns the failure result iff `attempt >= maxRetries` and
otherwise loops again. An exhausted oracle or an entry with
`attempt >= maxRetries` yields the trailing failure return. -/
def scrapeGo (maxRetries : Nat) : List AttemptOutcome → Nat → Nat → ScrapeResult
  | [], attempt, failureCount => ⟨false, [], failureCount, attempt⟩
  | o :: rest, attempt, failureCount =>
    if attempt < maxRetries then
      match o with
      | .ok posts => ⟨true, posts, 0, attempt + 1⟩
      | .rateLimited =>
          if attempt + 1 < maxRetries then
            scrapeGo maxRetries rest (attempt + 1) (failureCount + 1)
          else ⟨false, [], failureCount + 1, attempt + 1⟩
      | .otherError _ =>
          if maxRetries ≤ attempt + 1 then
            ⟨false, [], failureCount + 1, attempt + 1⟩
          else scrapeGo maxRetries rest (attempt + 1) (failureCount + 1)
    else ⟨false, [], failureCount, attempt⟩

/-- `InstagramService.scrapeProfile`: the retry loop entered with `attempt = 0`
and `this.maxRetries = 3`, starting from the instance's current failure count. -/
def InstagramService.scrapeProfile (outcomes : List AttemptOutcome)
    (failureCount : Nat) : ScrapeResult :=
  scrapeGo 3 outcomes 0 failureCount

/-- `DiscordService.sendSocialMediaUpdate` for one item: the channel send
outcome is an oracle (`some messageId` on success, `none` when
`channel.send` rejects). On success the notification is recorded via
`recordSentNotification(platform, content.id, content.url, message.id)`; on a
send failure the error is re-thrown and the database is untouched. -/
def DiscordService.sendSocialMediaUpdate (db : DBState) (now : Nat)
    (platform : String) (item : ContentItem) (sendResult : Option String) :
    Except String (String × DBState) :=
  match sendResult with
  | none => .error "Discord send failed"
  | some messageId =>
      .ok (messageId,
        Database.recordSentNotification db now platform item.id
          (some item.url) (some messageId))

/-- `Scheduler.sendNotifications`: iterate the batch sequentially; each item's
send is wrapped in its own try/catch, so a failed item leaves the state as it
was and the loop continues with the next item. `sendOk` is the channel oracle,
keyed by content id. -/
def Scheduler.sendNotifications (db : DBState) (now : Nat) (platform : String)
    (items : List ContentItem) (sendOk : String → Option String) : DBState :=
  items.foldl
    (fun acc item =>
      match DiscordService.sendSocialMediaUpdate acc now platform item (sendOk item.id) with
      | .ok r => r.2
      | .error _ => acc)
    db

/-- Observable operations of one check cycle, for stating ordering properties. -/
inductive Event where
  | evGetLastUpdate (platform : String)
  | evIsNotificationSent (platform contentId : String)
  | evUpdateLastCheck (platform : String)
  | evSendAttempt (platform contentId : String)
  | evRecordSent (platform contentId : String)
  deriving Repr, DecidableEq

/-- The sequence of database/channel operations performed by
`checkForNewVideos` on the successful-fetch path: read the check state, probe
`sent_notifications` for each cursor-new video, then (when at least one video
was fetched) update the check state — all before the function returns. -/
def checkForNewVideosEvents (db : DBState) (now : Nat)
    (videos : List ContentItem) : List Event :=
  let lastCheckTime := cursorTime db now "youtube"
  let newVideos := videos.filter (fun v => lastCheckTime < v.timestamp)
  Event.evGetLastUpdate "youtube" ::
    (newVideos.map (fun v => Event.evIsNotificationSent "youtube" v.id) ++
      (match videos.head? with
       | some _ => [Event.evUpdateLastCheck "youtube"]
       | none => []))

/-- The operations performed by `Scheduler.sendNotifications`: one send attempt
per item, followed by a sent-notification record when the channel send
succeeded. -/
def sendNotificationsEvents (platform : String) (items : List ContentItem)
    (sendOk : String → Option String) : List Event :=
  (items.map (fun item =>
    Event.evSendAttempt platform item.id ::
      (match sendOk item.id with
       | some _ => [Event.evRecordSent platform item.id]
       | none => []))).flatten

/-- The YouTube portion of `Scheduler.performScheduledCheck`: run
`checkForNewVideos`, then — if it succeeded with nonempty `newContent` — send
the notifications. -/
def youtubeCycleEvents (db : DBState) (now : Nat) (videos : List ContentItem)
    (sendOk : String → Option String) : List Event :=
  let res := (YouTubeService.checkForNewVideos db now (some videos)).1
  checkForNewVideosEvents db now videos ++
    (if res.success && !res.newContent.isEmpty then
       sendNotificationsEvents "youtube" res.newContent sendOk
     else [])

/-- Whether an event is the check-state update for platform `p`. -/
def isUpdateFor (p : String) : Event → Bool
  | Event.evUpdateLastCheck q => q == p
  | _ => false

/-- Whether an event is a notification send attempt for platform `p`. -/
def isSendAttemptFor (p : String) : Event → Bool
  | Event.evSendAttempt q _ => q == p
  | _ => false

/-- True iff somewhere in the trace a check-state update for `p` is followed
(strictly later) by a send attempt for `p`. -/
def sendAfterUpdate (p : String) : List Event → Bool
  | [] => false
  | e :: rest =>
      (isUpdateFor p e && rest.any (isSendAttemptFor p)) || sendAfterUpdate p rest

/-- True iff somewhere in the trace a send attempt for `p` is followed
(strictly later) by a check-state update for `p`. -/
def updateAfterSend (p : String) : List Event → Bool
  | [] => false
  | e :: rest =>
      (isSendAttemptFor p e && rest.any (isUpdateFor p)) || updateAfterSend p rest

/-- The database operations modelled in this development, for stating
invariants quantified over every Dedup Store mutation. -/
inductive DBOp where
  | opUpdateLastCheck (platform : String) (cid : Option String) (cts : Option Nat)
  | opRecordSentNotification (platform contentId : String) (url mid : Option String)
  | opCleanupOldNotifications
  deriving Repr, DecidableEq

/-- Apply a database operation at time `now`. -/
def DBOp.apply (op : DBOp) (db : DBState) (now : Nat) : DBState :=
  match op with
  | .opUpdateLastCheck p cid cts => Database.updateLastCheck db now p cid cts
  | .opRecordSentNotification p c u m => Database.recordSentNotification db now p c u m
  | .opCleanupOldNotifications => (Database.cleanupOldNotifications db now).1

/-- The stored `last_check_time` of a platform, when its row exists. -/
def lastCheckTimeOf (db : DBState) (p : String) : Option Nat :=
  (Database.getLastUpdate db p).map LastUpdateRow.last_check_time

end InfoBot

namespace InfoBot

/-- `find?` commutes with a `filter` that keeps everything the search predicate
accepts. -/
theorem find?_filter_of_imp {α : Type} (l : List α) (pr q : α → Bool)
    (h : ∀ a, pr a = true → q a = true) :
    (l.filter q).find? pr = l.find? pr := by
  induction l with
  | nil => rfl
  | cons a l ih =>
    by_cases hq : q a = true
    · rw [List.filter_cons, if_pos hq, List.find?_cons, List.find?_cons]
      cases hpa : pr a
      · exact ih
      · rfl
    · have hpa : pr a = false := by
        cases hpa2 : pr a
        · rfl
        · exact absurd (h a hpa2) hq
      rw [List.filter_cons, if_neg hq, List.find?_cons_of_neg _ (by simp [hpa])]
      exact ih

/-- After `updateLastCheck` for platform `p`, reading `p`'s row yields exactly
the freshly written row. -/
theorem getLastUpdate_updateLastCheck_self (db : DBState) (now : Nat) (p : String)
    (cid : Option String) (cts : Option Nat) :
    Database.getLastUpdate (Database.updateLastCheck db now p cid cts) p =
      some ⟨p, now, cid, cts⟩ := by
  unfold Database.getLastUpdate Database.updateLastCheck
  exact List.find?_cons_of_pos _ (by simp)

/-- `updateLastCheck` for platform `q` leaves any other platform's row as it was. -/
theorem getLastUpdate_updateLastCheck_other (db : DBState) (now : Nat) (p q : String)
    (cid : Option String) (cts : Option Nat) (hne : p ≠ q) :
    Database.getLastUpdate (Database.updateLastCheck db now q cid cts) p =
      Database.getLastUpdate db p := by
  unfold Database.getLastUpdate Database.updateLastCheck
  rw [List.find?_cons_of_neg _ (by simp [beq_iff_eq]; exact fun h => hne h.symm)]
  exact find?_filter_of_imp _ _ _ (by
    intro r hr
    simp [beq_iff_eq] at hr ⊢
    rw [hr]
    exact hne)

/-- Claim C1: for every item for which a sent-notification row already exists
with a matching (source, id), the source's check operation excludes that item
from the `newContent` it returns — for both pollers. -/
theorem checkForNew_excludes_sent (db : DBState) (now : Nat)
    (videos posts : List ContentItem) (item : ContentItem) :
    (Database.isNotificationSent db "youtube" item.id = true →
      item ∉ (YouTubeService.checkForNewVideos db now (some videos)).1.newContent) ∧
    (Database.isNotificationSent db "instagram" item.id = true →
      item ∉ (InstagramService.checkForNewPosts db now (FetchOutcome.ok posts)).1.newContent) := by
  constructor
  · intro hsent hmem
    simp only [YouTubeService.checkForNewVideos, List.mem_filter] at hmem
    rw [hsent] at hmem
    simp at hmem
  · intro hsent hmem
    simp only [InstagramService.checkForNewPosts, List.mem_filter] at hmem
    rw [hsent] at hmem
    simp at hmem

/-- Database with one already-sent youtube notification for content id `a`. -/
def w1db : DBState := ⟨[], [⟨"youtube", "a", none, none, 0⟩]⟩

/-- Item `a`, fetched again. -/
def w1item : ContentItem := ⟨"a", 10, "u"⟩

/-- Witness for C1 at a concrete input: item `a` is recorded as sent and is not
in the returned new content. -/
theorem checkForNew_excludes_sent_witness :
    Database.isNotificationSent w1db "youtube" w1item.id = true ∧
    w1item ∉ (YouTubeService.checkForNewVideos w1db 20 (some [w1item])).1.newContent := by
  refine ⟨by decide, ?_⟩
  exact (checkForNew_excludes_sent w1db 20 [w1item] [] w1item).1 (by decide)

/-- Claim C3: with cursor timestamp `T` and fetch `[T+2, T+1, T-1]`
(most-recent-first), `checkForNewVideos` returns exactly the `T+2` and `T+1`
items (strict greater-than boundary) and advances the cursor row to the `T+2`
item. -/
theorem cursor_semantics (db : DBState) (now T : Nat) (idA idB idC uA uB uC : String)
    (row : LastUpdateRow)
    (hrow : Database.getLastUpdate db "youtube" = some row)
    (hts : row.last_content_timestamp = some T)
    (hA : Database.isNotificationSent db "youtube" idA = false)
    (hB : Database.isNotificationSent db "youtube" idB = false) :
    (YouTubeService.checkForNewVideos db now
        (some [⟨idA, T + 2, uA⟩, ⟨idB, T + 1, uB⟩, ⟨idC, T - 1, uC⟩])).1.newContent =
      [⟨idA, T + 2, uA⟩, ⟨idB, T + 1, uB⟩] ∧
    Database.getLastUpdate
        (YouTubeService.checkForNewVideos db now
          (some [⟨idA, T + 2, uA⟩, ⟨idB, T + 1, uB⟩, ⟨idC, T - 1, uC⟩])).2 "youtube" =
      some ⟨"youtube", now, some idA, some (T + 2)⟩ := by
  have hcur : cursorTime db now "youtube" = T := by
    unfold cursorTime
    rw [hrow]
    simp [hts]
  constructor
  · have h2 : T < T + 2 := by omega
    have h1 : T < T + 1 := by omega
    have h0 : ¬ (T < T - 1) := by omega
    simp [YouTubeService.checkForNewVideos, hcur, h2, h1, h0, hA, hB]
  · exact getLastUpdate_updateLastCheck_self db now "youtube" (some idA) (some (T + 2))

/-- A youtube check-state row with content timestamp 100, for the C3 witness. -/
def c3db : DBState := ⟨[⟨"youtube", 50, some "old", some 100⟩], []⟩

/-- Witness for C3 at `T = 100`: fetch `[102, 101, 99]` yields exactly the 102
and 101 items and advances the cursor to 102. -/
theorem cursor_semantics_witness :
    Database.getLastUpdate c3db "youtube" = some ⟨"youtube", 50, some "old", some 100⟩ ∧
    (YouTubeService.checkForNewVideos c3db 500
        (some [⟨"a", 102, "ua"⟩, ⟨"b", 101, "ub"⟩, ⟨"c", 99, "uc"⟩])).1.newContent =
      [⟨"a", 102, "ua"⟩, ⟨"b", 101, "ub"⟩] ∧
    Database.getLastUpdate
        (YouTubeService.checkForNewVideos c3db 500
          (some [⟨"a", 102, "ua"⟩, ⟨"b", 101, "ub"⟩, ⟨"c", 99, "uc"⟩])).2 "youtube" =
      some ⟨"youtube", 500, some "a", some 102⟩ := by
  refine ⟨by decide, ?_⟩
  exact cursor_semantics c3db 500 100 "a" "b" "c" "ua" "ub" "uc"
    ⟨"youtube", 50, some "old", some 100⟩ (by decide) rfl (by decide) (by decide)

end InfoBot

namespace InfoBot

/-- A youtube check-state row with `last_check_time = 5` and content fields set,
used to exhibit the empty-fetch behavior. -/
def c4db : DBState := ⟨[⟨"youtube", 5, some "old", some 7⟩], []⟩

/-- Counterexample to claim C4: at time 100, a successful YouTube fetch of zero
items leaves the database completely unchanged — `last_check_time` stays 5 and
is not advanced to 100. -/
theorem emptyFetch_advance_cex :
    (YouTubeService.checkForNewVideos c4db 100 (some [])).2 = c4db ∧
    lastCheckTimeOf (YouTubeService.checkForNewVideos c4db 100 (some [])).2 "youtube" =
      some 5 ∧
    ¬ lastCheckTimeOf (YouTubeService.checkForNewVideos c4db 100 (some [])).2 "youtube" =
      some 100 := by decide

/-- Amended C4: on a successful zero-item fetch the YouTube poller performs no
check-state update at all (the state, and in particular `last_check_time`, is
unchanged), while the Instagram poller writes a fresh row with
`last_check_time = now` and both content fields null — overwriting any prior
content values. -/
theorem emptyFetch_behavior (db : DBState) (now : Nat) :
    (YouTubeService.checkForNewVideos db now (some [])).2 = db ∧
    Database.getLastUpdate (InstagramService.checkForNewPosts db now (FetchOutcome.ok [])).2
        "instagram" = some ⟨"instagram", now, none, none⟩ := by
  exact ⟨rfl, getLastUpdate_updateLastCheck_self db now "instagram" none none⟩

/-- Claim C5: `recordSentNotification` is idempotent — two calls with the same
`(platform, content_id)` key leave exactly one row for that key, and
`isNotificationSent` is true after the first call. -/
theorem recordSent_idempotent (db : DBState) (n1 n2 : Nat) (p c : String)
    (u1 u2 m1 m2 : Option String) :
    (Database.recordSentNotification
        (Database.recordSentNotification db n1 p c u1 m1) n2 p c u2 m2).sent_notifications.countP
      (sentKey p c) = 1 ∧
    (Database.recordSentNotification
        (Database.recordSentNotification db n1 p c u1 m1) n2 p c u2 m2).sent_notifications.find?
      (sentKey p c) = some ⟨p, c, u2, m2, n2⟩ ∧
    Database.isNotificationSent (Database.recordSentNotification db n1 p c u1 m1) p c = true := by
  refine ⟨?_, ?_, ?_⟩
  · simp [Database.recordSentNotification, List.countP_cons, List.countP_filter, sentKey]
  · exact List.find?_cons_of_pos _ (by simp [sentKey])
  · simp [Database.isNotificationSent, Database.recordSentNotification, List.any_cons, sentKey]

/-- Claim C10: when `checkForNewPosts` hits its catch block, it still calls
`updateLastCheck('instagram', null, null)`: the result is a failed check with
empty content, the stored row has `last_check_time = now` with both content
fields null, and the next check's cursor falls back to the default 24-hour
window. -/
theorem instagram_error_resets_cursor (db : DBState) (now now2 : Nat) (e : String) :
    (InstagramService.checkForNewPosts db now (FetchOutcome.thrown e)).1 =
      ⟨false, []⟩ ∧
    Database.getLastUpdate (InstagramService.checkForNewPosts db now (FetchOutcome.thrown e)).2
        "instagram" = some ⟨"instagram", now, none, none⟩ ∧
    cursorTime (InstagramService.checkForNewPosts db now (FetchOutcome.thrown e)).2 now2
        "instagram" = now2 - dayMs := by
  refine ⟨rfl, getLastUpdate_updateLastCheck_self db now "instagram" none none, ?_⟩
  unfold cursorTime
  have h2 : (InstagramService.checkForNewPosts db now (FetchOutcome.thrown e)).2 =
      Database.updateLastCheck db now "instagram" none none := rfl
  rw [h2, getLastUpdate_updateLastCheck_self db now "instagram" none none]
  rfl

end InfoBot

namespace InfoBot

/-- Claim C6: every modelled Dedup Store mutation leaves a source's stored
`last_check_time` at or above its previous value, provided the wall clock has
not gone backwards (`CURRENT_TIMESTAMP` at the operation is at least the stored
value). -/
theorem lastCheck_monotone (op : DBOp) (db : DBState) (now : Nat) (p : String) (t t2 : Nat)
    (hbefore : lastCheckTimeOf db p = some t)
    (hclock : t ≤ now)
    (hafter : lastCheckTimeOf (op.apply db now) p = some t2) :
    t ≤ t2 := by
  cases op with
  | opUpdateLastCheck q cid cts =>
    by_cases hpq : p = q
    · subst hpq
      have hself : lastCheckTimeOf ((DBOp.opUpdateLastCheck p cid cts).apply db now) p =
          some now := by
        unfold lastCheckTimeOf DBOp.apply
        rw [getLastUpdate_updateLastCheck_self]
        rfl
      rw [hself] at hafter
      cases hafter
      exact hclock
    · have hother : lastCheckTimeOf ((DBOp.opUpdateLastCheck q cid cts).apply db now) p =
          lastCheckTimeOf db p := by
        unfold lastCheckTimeOf DBOp.apply
        rw [getLastUpdate_updateLastCheck_other db now p q cid cts hpq]
      rw [hother, hbefore] at hafter
      cases hafter
      exact Nat.le_refl t
  | opRecordSentNotification q d u m =>
    have heq : lastCheckTimeOf ((DBOp.opRecordSentNotification q d u m).apply db now) p =
        lastCheckTimeOf db p := rfl
    rw [heq, hbefore] at hafter
    cases hafter
    exact Nat.le_refl t
  | opCleanupOldNotifications =>
    have heq : lastCheckTimeOf (DBOp.opCleanupOldNotifications.apply db now) p =
        lastCheckTimeOf db p := rfl
    rw [heq, hbefore] at hafter
    cases hafter
    exact Nat.le_refl t

/-- A youtube row with `last_check_time = 5`, for the C6 witness. -/
def c6db : DBState := ⟨[⟨"youtube", 5, none, none⟩], []⟩

/-- Witness for C6 at a concrete input: updating at time 10 moves
`last_check_time` from 5 to 10, and 5 ≤ 10. -/
theorem lastCheck_monotone_witness :
    lastCheckTimeOf c6db "youtube" = some 5 ∧ (5 : Nat) ≤ 10 ∧
    lastCheckTimeOf ((DBOp.opUpdateLastCheck "youtube" none none).apply c6db 10) "youtube" =
      some 10 ∧ (5 : Nat) ≤ 10 := by
  refine ⟨by decide, by decide, by decide, ?_⟩
  exact lastCheck_monotone (DBOp.opUpdateLastCheck "youtube" none none) c6db 10 "youtube" 5 10
    (by decide) (by decide) (by decide)

/-- Counterexample to claim C7: with a non-rate-limit failure on the first
attempt and a success on the second, `scrapeProfile` performs a second attempt
and resolves successfully — the first failure re-entered the retry loop instead
of being surfaced immediately as a failed check. -/
theorem otherError_retried_cex :
    (InstagramService.scrapeProfile
        [AttemptOutcome.otherError "boom", AttemptOutcome.ok [⟨"p1", 42, "u1"⟩]] 0).success =
      true ∧
    (InstagramService.scrapeProfile
        [AttemptOutcome.otherError "boom", AttemptOutcome.ok [⟨"p1", 42, "u1"⟩]] 0).attemptsUsed =
      2 := by decide

/-- Amended C7: a non-rate-limit failure increments the failure count, and
rather than being surfaced immediately it re-enters the retry loop (without the
rate-limit-specific escalating wait) while the attempt count stays below the
maximum; only once the bound is reached is it surfaced as a failed check. -/
theorem otherError_step (maxRetries : Nat) (e : String) (rest : List AttemptOutcome)
    (attempt fc : Nat) (h : attempt < maxRetries) :
    scrapeGo maxRetries (AttemptOutcome.otherError e :: rest) attempt fc =
      (if maxRetries ≤ attempt + 1 then ⟨false, [], fc + 1, attempt + 1⟩
       else scrapeGo maxRetries rest (attempt + 1) (fc + 1)) := by
  simp [scrapeGo, h]

/-- Witness for the amended C7: a first-attempt non-rate-limit failure with the
bound of 3 recurses into a second attempt with failure count 1. -/
theorem otherError_step_witness :
    (0 : Nat) < 3 ∧
    scrapeGo 3 [AttemptOutcome.otherError "x"] 0 0 =
      (if (3 : Nat) ≤ 0 + 1 then ⟨false, [], 0 + 1, 0 + 1⟩
       else scrapeGo 3 [] (0 + 1) (0 + 1)) := by
  exact ⟨by decide, otherError_step 3 "x" [] 0 0 (by decide)⟩

/-- The retry loop never performs more attempts than `maxRetries` when entered
with an attempt counter within bounds. -/
theorem scrapeGo_attempts_le (m : Nat) (outcomes : List AttemptOutcome) :
    ∀ attempt fc, attempt ≤ m → (scrapeGo m outcomes attempt fc).attemptsUsed ≤ m := by
  induction outcomes with
  | nil => intro a f ha; simpa [scrapeGo] using ha
  | cons o rest ih =>
    intro a f ha
    simp only [scrapeGo]
    by_cases hlt : a < m
    · simp only [if_pos hlt]
      cases o with
      | ok posts => simpa using hlt
      | rateLimited =>
        by_cases h2 : a + 1 < m
        · simp only [if_pos h2]
          exact ih (a + 1) (f + 1) (Nat.le_of_lt h2)
        · simp only [if_neg h2]
          simpa using hlt
      | otherError msg =>
        by_cases h2 : m ≤ a + 1
        · simp only [if_pos h2]
          simpa using hlt
        · simp only [if_neg h2]
          exact ih (a + 1) (f + 1) (by omega)
    · simp only [if_neg hlt]
      exact ha

/-- If no attempt succeeds, the retry loop resolves with a failure result and an
empty post list. -/
theorem scrapeGo_all_fail (m : Nat) :
    ∀ outcomes : List AttemptOutcome, (∀ o ∈ outcomes, o.isOk = false) →
      ∀ attempt fc, (scrapeGo m outcomes attempt fc).success = false ∧
        (scrapeGo m outcomes attempt fc).posts = [] := by
  intro outcomes
  induction outcomes with
  | nil => intro hfail a f; exact ⟨rfl, rfl⟩
  | cons o rest ih =>
    intro hfail a f
    have ho := hfail o (List.mem_cons_self o rest)
    have hrest : ∀ o2 ∈ rest, o2.isOk = false :=
      fun o2 h2 => hfail o2 (List.mem_cons_of_mem o h2)
    simp only [scrapeGo]
    by_cases hlt : a < m
    · simp only [if_pos hlt]
      cases o with
      | ok posts => simp [AttemptOutcome.isOk] at ho
      | rateLimited =>
        by_cases h2 : a + 1 < m
        · simp only [if_pos h2]
          exact ih hrest (a + 1) (f + 1)
        · simp only [if_neg h2]
          exact ⟨by simp, by simp⟩
      | otherError msg =>
        by_cases h2 : m ≤ a + 1
        · simp only [if_pos h2]
          exact ⟨by simp, by simp⟩
        · simp only [if_neg h2]
          exact ih hrest (a + 1) (f + 1)
    · simp only [if_neg hlt]
      exact ⟨by simp, by simp⟩

/-- Claim C8: `scrapeProfile` performs at most the fixed maximum of 3 attempts;
when every attempt fails it resolves with `success = false` and empty posts
rather than looping; and with at least one accumulated failure the enforced
pre-request gap is at least double the base delay. -/
theorem retry_bounded (outcomes : List AttemptOutcome) (fc fc2 : Nat)
    (hfc : 1 ≤ fc2)
    (hfail : ∀ o ∈ outcomes, o.isOk = false) :
    (InstagramService.scrapeProfile outcomes fc).attemptsUsed ≤ 3 ∧
    (InstagramService.scrapeProfile outcomes fc).success = false ∧
    (InstagramService.scrapeProfile outcomes fc).posts = [] ∧
    2 * InstagramService.rateLimitDelay ≤ InstagramService.currentDelay fc2 := by
  refine ⟨scrapeGo_attempts_le 3 outcomes 0 fc (by omega),
    (scrapeGo_all_fail 3 outcomes hfail 0 fc).1,
    (scrapeGo_all_fail 3 outcomes hfail 0 fc).2, ?_⟩
  unfold InstagramService.currentDelay InstagramService.rateLimitDelay
  have hpow : 2 ^ 1 ≤ 2 ^ fc2 := Nat.pow_le_pow_right (by omega) hfc
  calc 2 * 10000 = 10000 * 2 := by ring
    _ ≤ 10000 * 2 ^ fc2 := Nat.mul_le_mul_left 10000 (by simpa using hpow)

/-- Witness for C8: three consecutive rate-limit failures exhaust the bound and
resolve as a failure; with failure count 1 the enforced gap doubles. -/
theorem retry_bounded_witness :
    (1 : Nat) ≤ 1 ∧
    (∀ o ∈ [AttemptOutcome.rateLimited, AttemptOutcome.rateLimited,
        AttemptOutcome.rateLimited], AttemptOutcome.isOk o = false) ∧
    ((InstagramService.scrapeProfile
        [AttemptOutcome.rateLimited, AttemptOutcome.rateLimited,
          AttemptOutcome.rateLimited] 0).attemptsUsed ≤ 3 ∧
      (InstagramService.scrapeProfile
        [AttemptOutcome.rateLimited, AttemptOutcome.rateLimited,
          AttemptOutcome.rateLimited] 0).success = false ∧
      (InstagramService.scrapeProfile
        [AttemptOutcome.rateLimited, AttemptOutcome.rateLimited,
          AttemptOutcome.rateLimited] 0).posts = [] ∧
      2 * InstagramService.rateLimitDelay ≤ InstagramService.currentDelay 1) := by
  refine ⟨by decide, by decide, ?_⟩
  exact retry_bounded
    [AttemptOutcome.rateLimited, AttemptOutcome.rateLimited, AttemptOutcome.rateLimited]
    0 1 (by decide) (by decide)

end InfoBot

namespace InfoBot

/-- A trace containing no check-state update for `p` has no update after a send. -/
theorem updateAfterSend_of_no_update (p : String) :
    ∀ tr : List Event, (∀ e2 ∈ tr, isUpdateFor p e2 = false) →
      updateAfterSend p tr = false := by
  intro tr
  induction tr with
  | nil => intro _; rfl
  | cons e rest ih =>
    intro h
    have hrest : ∀ e2 ∈ rest, isUpdateFor p e2 = false :=
      fun e2 h2 => h e2 (List.mem_cons_of_mem e h2)
    have hany : rest.any (isUpdateFor p) = false := by
      rw [List.any_eq_false]
      intro x hx
      simp [hrest x hx]
    simp only [updateAfterSend, ih hrest, hany, Bool.and_false, Bool.or_false]

/-- If the first block of a trace has no send attempt for `p` and the second no
check-state update for `p`, then no update for `p` follows a send for `p`. -/
theorem updateAfterSend_append (p : String) :
    ∀ tr1 tr2 : List Event, (∀ e ∈ tr1, isSendAttemptFor p e = false) →
      (∀ e ∈ tr2, isUpdateFor p e = false) →
      updateAfterSend p (tr1 ++ tr2) = false := by
  intro tr1
  induction tr1 with
  | nil => intro tr2 h1 h2; exact updateAfterSend_of_no_update p tr2 h2
  | cons e rest ih =>
    intro tr2 h1 h2
    simp only [List.cons_append, updateAfterSend]
    rw [h1 e (List.mem_cons_self e rest)]
    simp only [Bool.false_and, Bool.false_or]
    exact ih tr2 (fun x hx => h1 x (List.mem_cons_of_mem e hx)) h2

/-- The trace of `checkForNewVideos` contains no notification send attempt:
those happen only after the check returns. -/
theorem checkEvents_no_send (db : DBState) (now : Nat) (videos : List ContentItem)
    (p : String) :
    ∀ e ∈ checkForNewVideosEvents db now videos, isSendAttemptFor p e = false := by
  intro e he
  simp only [checkForNewVideosEvents] at he
  rw [List.mem_cons] at he
  rcases he with rfl | he
  · rfl
  · rw [List.mem_append] at he
    rcases he with he | he
    · rw [List.mem_map] at he
      obtain ⟨v, _, rfl⟩ := he
      rfl
    · cases hh : videos.head? <;> rw [hh] at he
      · cases he
      · rw [List.mem_singleton] at he
        subst he
        rfl

/-- The trace of `Scheduler.sendNotifications` contains no check-state update:
the dispatcher only sends and records. -/
theorem sendEvents_no_update (p q : String) (items : List ContentItem)
    (sendOk : String → Option String) :
    ∀ e ∈ sendNotificationsEvents q items sendOk, isUpdateFor p e = false := by
  intro e he
  simp only [sendNotificationsEvents, List.mem_flatten, List.mem_map] at he
  obtain ⟨l, ⟨item, _, rfl⟩, hel⟩ := he
  rw [List.mem_cons] at hel
  rcases hel with rfl | hel
  · rfl
  · cases hs : sendOk item.id <;> rw [hs] at hel
    · cases hel
    · rw [List.mem_singleton] at hel
      subst hel
      rfl

/-- The empty database, for the C2 counterexample cycle. -/
def c2db : DBState := ⟨[], []⟩

/-- A video published within the default 24-hour window of the cycle below. -/
def c2video : ContentItem := ⟨"v1", 199999999, "u1"⟩

/-- Counterexample to claim C2: in a concrete check cycle with one new video,
the check-state update for youtube occurs strictly before the notification send
attempt — the trace even ends with the send and record, so the cursor update is
not the last operation and does not come after the sends. -/
theorem cycle_sendAfterUpdate_cex :
    sendAfterUpdate "youtube"
      (youtubeCycleEvents c2db 200000000 [c2video] (fun _ => some "m1")) = true ∧
    youtubeCycleEvents c2db 200000000 [c2video] (fun _ => some "m1") =
      [Event.evGetLastUpdate "youtube", Event.evIsNotificationSent "youtube" "v1",
        Event.evUpdateLastCheck "youtube", Event.evSendAttempt "youtube" "v1",
        Event.evRecordSent "youtube" "v1"] := by decide

/-- Amended C2: within a single check cycle the source's check-state update is
performed at the end of `checkForNew`, before any of that source's notification
sends are attempted — never after a send. -/
theorem cycle_update_before_sends (db : DBState) (now : Nat)
    (videos : List ContentItem) (sendOk : String → Option String) :
    updateAfterSend "youtube" (youtubeCycleEvents db now videos sendOk) = false := by
  unfold youtubeCycleEvents
  apply updateAfterSend_append
  · exact checkEvents_no_send db now videos "youtube"
  · intro e he
    split at he
    · exact sendEvents_no_update "youtube" "youtube" _ sendOk e he
    · cases he

end InfoBot

namespace InfoBot

/-- One step of `Scheduler.sendNotifications`: a failed channel send leaves the
state unchanged, a successful one records the notification. -/
theorem sendNotifications_cons (db : DBState) (now : Nat) (q : String)
    (item : ContentItem) (rest : List ContentItem) (sendOk : String → Option String) :
    Scheduler.sendNotifications db now q (item :: rest) sendOk =
      Scheduler.sendNotifications
        (match sendOk item.id with
         | some mid =>
             Database.recordSentNotification db now q item.id (some item.url) (some mid)
         | none => db) now q rest sendOk := by
  cases hs : sendOk item.id <;>
    simp [Scheduler.sendNotifications, DiscordService.sendSocialMediaUpdate, hs]

/-- Recording one notification preserves an existing sent record. -/
theorem isSent_mono_record (db : DBState) (now : Nat) (p c q d : String)
    (u m : Option String) (h : Database.isNotificationSent db p c = true) :
    Database.isNotificationSent (Database.recordSentNotification db now q d u m) p c = true := by
  unfold Database.isNotificationSent at h ⊢
  unfold Database.recordSentNotification
  rw [List.any_eq_true] at h ⊢
  obtain ⟨r, hr, hkey⟩ := h
  by_cases hqd : sentKey p c ⟨q, d, u, m, now⟩ = true
  · exact ⟨⟨q, d, u, m, now⟩, List.mem_cons_self _ _, hqd⟩
  · refine ⟨r, List.mem_cons_of_mem _ (List.mem_filter.mpr ⟨hr, ?_⟩), hkey⟩
    cases hk2 : sentKey q d r
    · simp
    · exfalso
      apply hqd
      unfold sentKey at hk2 hkey ⊢
      simp only [Bool.and_eq_true, beq_iff_eq] at hk2 hkey ⊢
      exact ⟨hk2.1 ▸ hkey.1, hk2.2 ▸ hkey.2⟩

/-- `sendNotifications` preserves an existing sent record through the batch. -/
theorem isSent_mono_sendNotifications (now : Nat) (q p c : String)
    (sendOk : String → Option String) :
    ∀ (items : List ContentItem) (db : DBState),
      Database.isNotificationSent db p c = true →
      Database.isNotificationSent (Scheduler.sendNotifications db now q items sendOk) p c =
        true := by
  intro items
  induction items with
  | nil => intro db h; exact h
  | cons item rest ih =>
    intro db h
    rw [sendNotifications_cons]
    cases hs : sendOk item.id
    · exact ih db h
    · exact ih _ (isSent_mono_record db now p c q item.id _ _ h)

/-- A content id whose channel send always fails is never recorded by the batch. -/
theorem notSent_preserved (now : Nat) (p c : String) (sendOk : String → Option String)
    (hc : sendOk c = none) :
    ∀ (items : List ContentItem) (db : DBState),
      Database.isNotificationSent db p c = false →
      Database.isNotificationSent (Scheduler.sendNotifications db now p items sendOk) p c =
        false := by
  intro items
  induction items with
  | nil => intro db h; exact h
  | cons item rest ih =>
    intro db h
    rw [sendNotifications_cons]
    cases hs : sendOk item.id
    · exact ih db h
    · rename_i mid
      apply ih
      have hne : item.id ≠ c := by
        intro heq
        rw [heq, hc] at hs
        cases hs
      show Database.isNotificationSent
        (Database.recordSentNotification db now p item.id (some item.url) (some mid)) p c = false
      unfold Database.isNotificationSent Database.recordSentNotification
      rw [List.any_cons]
      have hhead : sentKey p c ⟨p, item.id, some item.url, some mid, now⟩ = false := by
        unfold sentKey
        simp [hne]
      rw [hhead]
      simp only [Bool.false_or]
      rw [List.any_eq_false]
      intro r hr
      rw [List.mem_filter] at hr
      unfold Database.isNotificationSent at h
      rw [List.any_eq_false] at h
      exact h r hr.1

/-- Every item whose channel send succeeds is recorded by the end of the batch. -/
theorem sent_after_success (now : Nat) (p : String) (sendOk : String → Option String) :
    ∀ (items : List ContentItem) (db : DBState) (j : ContentItem), j ∈ items →
      ∀ mid, sendOk j.id = some mid →
      Database.isNotificationSent (Scheduler.sendNotifications db now p items sendOk) p j.id =
        true := by
  intro items
  induction items with
  | nil => intro db j hj; cases hj
  | cons item rest ih =>
    intro db j hj mid hmid
    rw [sendNotifications_cons]
    rw [List.mem_cons] at hj
    by_cases hid : item.id = j.id
    · rw [hid, hmid]
      apply isSent_mono_sendNotifications
      show Database.isNotificationSent
        (Database.recordSentNotification db now p j.id (some item.url) (some mid)) p j.id = true
      unfold Database.isNotificationSent Database.recordSentNotification
      rw [List.any_cons]
      have hhead : sentKey p j.id ⟨p, j.id, some item.url, some mid, now⟩ = true := by
        unfold sentKey
        simp
      rw [hhead]
      rfl
    · rcases hj with rfl | hj
      · exact absurd rfl hid
      · cases hs : sendOk item.id
        · exact ih db j hj mid hmid
        · exact ih _ j hj mid hmid

/-- Claim C9: a failed channel send surfaces as an error and the item is not
recorded as sent (it stays eligible for a future cycle), while every other item
of the batch whose send succeeds is still delivered and recorded — one failure
does not abort the rest of the batch. -/
theorem sendBatch_failure_isolated (db : DBState) (now : Nat) (p c : String)
    (items : List ContentItem) (sendOk : String → Option String) (item : ContentItem)
    (hfail : sendOk c = none)
    (hnot : Database.isNotificationSent db p c = false) :
    DiscordService.sendSocialMediaUpdate db now p item none =
      Except.error "Discord send failed" ∧
    Database.isNotificationSent (Scheduler.sendNotifications db now p items sendOk) p c =
      false ∧
    (∀ j ∈ items, ∀ mid, sendOk j.id = some mid →
      Database.isNotificationSent (Scheduler.sendNotifications db now p items sendOk) p j.id =
        true) := by
  refine ⟨rfl, notSent_preserved now p c sendOk hfail items db hnot, ?_⟩
  intro j hj mid hmid
  exact sent_after_success now p sendOk items db j hj mid hmid

/-- The two-item batch for the C9 witness: item `a` fails to send, item `b`
succeeds. -/
def w9items : List ContentItem := [⟨"a", 1, "ua"⟩, ⟨"b", 2, "ub"⟩]

/-- Channel oracle for the C9 witness. -/
def w9sendOk (s : String) : Option String := if s == "b" then some "mid1" else none

/-- Witness for C9 at a concrete input: after the batch, item `a` (whose send
failed) is not recorded while item `b` (sent after the failure) is. -/
theorem sendBatch_failure_isolated_witness :
    w9sendOk "a" = none ∧
    Database.isNotificationSent ⟨[], []⟩ "youtube" "a" = false ∧
    Database.isNotificationSent
        (Scheduler.sendNotifications ⟨[], []⟩ 7 "youtube" w9items w9sendOk) "youtube" "a" =
      false ∧
    (∀ j ∈ w9items, ∀ mid, w9sendOk j.id = some mid →
      Database.isNotificationSent
          (Scheduler.sendNotifications ⟨[], []⟩ 7 "youtube" w9items w9sendOk) "youtube" j.id =
        true) := by
  refine ⟨by decide, by decide, ?_, ?_⟩
  · exact (sendBatch_failure_isolated ⟨[], []⟩ 7 "youtube" "a" w9items w9sendOk ⟨"a", 1, "ua"⟩
      (by decide) (by decide)).2.1
  · exact (sendBatch_failure_isolated ⟨[], []⟩ 7 "youtube" "a" w9items w9sendOk ⟨"a", 1, "ua"⟩
      (by decide) (by decide)).2.2

end InfoBot
